import Mathlib

/-!
# utils/apiDb.js

A shallow embedding of the module `src/utils/apiDb.js`: the options object
handed to `mysql.createPool`, the one-shot `pool.getConnection` probe with its
callback, and the `module.exports = pool.promise()` assignment.

The module is straight-line code over three libraries (dotenv, mysql2 and the
console).  Every library call is an explicit step on a `World` that records the
observable effects in order; what the libraries decide on their own (what
dotenv adds to the process environment, whether the probe connects) is an
input of the model.
-/

namespace ApiDb

/-! ## Values -/

/-- The JavaScript values that the module handles. Numbers are the integer
literals of the source; an `errorObj` is an `Error` instance. -/
inductive JSVal where
  | undefined
  | null
  | bool (b : Bool)
  | num (n : Int)
  | str (s : String)
  | errorObj (message : String)
  | emptyObject
  | connection (id : Nat)
  | pool (id : Nat)
  | promisePool (id : Nat)
  deriving DecidableEq, Repr

/-- JavaScript truthiness, as tested by `if (err)`. -/
def JSVal.truthy : JSVal → Bool
  | .undefined => false
  | .null => false
  | .bool b => b
  | .num n => n != 0
  | .str s => s != ""
  | .errorObj _ => true
  | .emptyObject => true
  | .connection _ => true
  | .pool _ => true
  | .promisePool _ => true

/-- Whether a value is a JavaScript number holding an integer. -/
def JSVal.isInteger : JSVal → Bool
  | .num _ => true
  | _ => false

/-- Whether a value is a JavaScript string. -/
def JSVal.isString : JSVal → Bool
  | .str _ => true
  | _ => false

/-- An object literal: its own properties in source order. -/
abbrev ObjectLit := List (String × JSVal)

/-- Property read `o.key`: the value of the own property, `undefined` when the
object has no such property. -/
def ObjectLit.get (o : ObjectLit) (key : String) : JSVal :=
  match o.lookup key with
  | some v => v
  | none => .undefined

/-- The own property names of an object literal. -/
def ObjectLit.keys (o : ObjectLit) : List String :=
  o.map Prod.fst

/-- The process environment `process.env`: a variable is a string or is not set. -/
abbrev Env := String → Option String

/-- Property read `process.env.NAME` as a JavaScript value. -/
def envValue (v : Option String) : JSVal :=
  match v with
  | some s => .str s
  | none => .undefined

/-! ## Effects and the world -/

/-- The observable effects of the module, one per library call. -/
inductive Effect where
  | dotenvConfig
  | envRead (key : String)
  | createPool (options : ObjectLit) (pool : Nat)
  | getConnection (pool : Nat)
  | promise (pool : Nat)
  | setExports (v : JSVal)
  | consoleLog (args : List JSVal)
  | consoleError (args : List JSVal)
  | release (conn : Nat)
  deriving DecidableEq, Repr

/-- The state the module runs in. `dotenv` is what `require("dotenv").config()`
does to the process environment; `pools` holds the options of every pool
constructed so far (a pool is named by its index); `held` lists the connections
that are checked out of the pool and not yet released; `trace` is the sequence
of effects so far. -/
structure World where
  env : Env
  dotenv : Env → Env
  trace : List Effect
  pools : List ObjectLit
  held : List Nat
  nextConn : Nat
  moduleExports : JSVal

/-- Append one effect to the trace. -/
def World.emit (w : World) (e : Effect) : World :=
  { w with trace := w.trace ++ [e] }

/-- A fresh module instance in a process whose environment is `env` and whose
dotenv step is `dotenv`: nothing has happened yet and `module.exports` is the
empty object. -/
def World.fresh (env : Env) (dotenv : Env → Env) : World :=
  { env := env, dotenv := dotenv, trace := [], pools := [], held := [],
    nextConn := 0, moduleExports := .emptyObject }

/-! ## Library steps -/

/-- Line 1, `require("dotenv").config()`: the process environment becomes
whatever dotenv makes of it. -/
def dotenvConfig (w : World) : World :=
  { w with env := w.dotenv w.env, trace := w.trace ++ [.dotenvConfig] }

/-- The expression `process.env.NAME`. -/
def processEnv (key : String) (w : World) : JSVal × World :=
  (envValue (w.env key), w.emit (.envRead key))

/-- Modelled from the spec: `initialize(config) -> ConnectionPool` of the
pooling library, absent from the sources. It constructs a pool with the given
parameters, does not block and does not validate connectivity. The new pool is
named by the next free index. -/
def createPool (options : ObjectLit) (w : World) : Nat × World :=
  (w.pools.length,
    { w with pools := w.pools ++ [options],
             trace := w.trace ++ [.createPool options w.pools.length] })

/-- Modelled from the spec: the asynchronous acquisition of one connection of
the pooling library, absent from the sources. The call only requests the
connection and returns; the callback runs later, see `deliver`. -/
def getConnection (pool : Nat) (w : World) : World :=
  w.emit (.getConnection pool)

/-- Modelled from the spec: the promise-convention wrapper of a pool
(`pool.promise()`), a method of the pooling library absent from the sources. -/
def promise (pool : Nat) (w : World) : JSVal × World :=
  (.promisePool pool, w.emit (.promise pool))

/-- The assignment `module.exports = v`. -/
def setModuleExports (v : JSVal) (w : World) : World :=
  { w with moduleExports := v, trace := w.trace ++ [.setExports v] }

/-- The call `console.log(...args)`. -/
def consoleLog (args : List JSVal) (w : World) : World :=
  w.emit (.consoleLog args)

/-- The call `console.error(...args)`. -/
def consoleError (args : List JSVal) (w : World) : World :=
  w.emit (.consoleError args)

/-- Modelled from the spec: `connection.release()` of the pooling library,
absent from the sources: the connection returns to the pool. On a value that is
not a connection the method call raises a `TypeError`. -/
def release (c : JSVal) (w : World) : Except JSVal Unit × World :=
  match c with
  | .connection id =>
      (.ok (), { w with held := w.held.erase id, trace := w.trace ++ [.release id] })
  | _ => (.error (.errorObj "TypeError"), w)

/-! ## The module -/

/-- Lines 4-14: the options object literal, its property values evaluated in
source order. -/
def poolOptions (w : World) : ObjectLit × World :=
  let (host, w) := processEnv "API_DB_HOST" w
  let (user, w) := processEnv "API_DB_USER" w
  let (password, w) := processEnv "API_DB_PASSWORD" w
  let (database, w) := processEnv "API_DB_DATABASE" w
  let (port, w) := processEnv "API_DB_PORT" w
  ([("host", host),
    ("user", user),
    ("password", password),
    ("database", database),
    ("port", port),
    ("waitForConnections", .bool true),
    ("queueLimit", .num 0),
    ("dateStrings", .bool true)], w)

/-- Lines 17-24: the callback given to `pool.getConnection`. -/
def probeCallback (err connection : JSVal) (w : World) : Except JSVal Unit × World :=
  if err.truthy then
    let w := consoleError [.str " not Error connecting to MySQL:", err] w
    (.ok (), w)
  else
    let w := consoleLog [.str "API MySQL connected successfully!"] w
    release connection w

/-- Lines 1-27: the module body, run once when the module is loaded. -/
def moduleBody (w : World) : World :=
  let w := dotenvConfig w
  let (options, w) := poolOptions w
  let (pool, w) := createPool options w
  let w := getConnection pool w
  let (wrapped, w) := promise pool w
  setModuleExports wrapped w

/-! ## Library calls that raise -/

/-- The synchronous part of the library calls of the module, which the sources
do not fix: each call returns (`none`) or raises a value. `dotenvConfig` is line
1 (in the process environment it finds), `requireMysql` is line 2, `createPool`
is line 4 (on the options object), `getConnection` is line 17 and `promise` is
line 27 (both on the pool built from the options object). -/
structure Library where
  dotenvConfig : Env → Option JSVal
  requireMysql : Option JSVal
  createPool : ObjectLit → Option JSVal
  getConnection : ObjectLit → Option JSVal
  promise : ObjectLit → Option JSVal

/-- The library as the spec describes it: every call returns. -/
def Library.returning : Library :=
  { dotenvConfig := fun _ => none, requireMysql := none, createPool := fun _ => none,
    getConnection := fun _ => none, promise := fun _ => none }

/-- A library whose `getConnection` raises a `RangeError` on a pool whose `port`
option is the text `65536`, and whose other calls return. -/
def Library.portChecking : Library :=
  { dotenvConfig := fun _ => none, requireMysql := none, createPool := fun _ => none,
    getConnection := fun o =>
      if o.get "port" = .str "65536" then some (.errorObj "RangeError") else none,
    promise := fun _ => none }

/-- The value the first raising library call of the module raises, in source
order, for the process environment `env` found at load and the options object
`options`; `none` when every call returns. -/
def Library.raised (lib : Library) (env : Env) (options : ObjectLit) : Option JSVal :=
  match lib.dotenvConfig env with
  | some e => some e
  | none =>
    match lib.requireMysql with
    | some e => some e
    | none =>
      match lib.createPool options with
      | some e => some e
      | none =>
        match lib.getConnection options with
        | some e => some e
        | none => lib.promise options

/-- Lines 1-27 with the library calls free to raise: the module has no
`try`, so a raise of a library call ends the module body there, with the state
as it is at that point. When every call returns this is `moduleBody`. -/
def moduleInit (lib : Library) (w : World) : Except JSVal Unit × World :=
  match lib.dotenvConfig w.env with
  | some e => (.error e, w)
  | none =>
    let w := dotenvConfig w
    match lib.requireMysql with
    | some e => (.error e, w)
    | none =>
      let (options, w) := poolOptions w
      match lib.createPool options with
      | some e => (.error e, w)
      | none =>
        let (pool, w) := createPool options w
        match lib.getConnection options with
        | some e => (.error e, w)
        | none =>
          let w := getConnection pool w
          match lib.promise options with
          | some e => (.error e, w)
          | none =>
            let (wrapped, w) := promise pool w
            (.ok (), setModuleExports wrapped w)

/-- A sample environment: the variables of the module are set but
`API_DB_HOST`, and `API_DB_PORT` is the text `65536`. -/
def badPortEnv : Env :=
  fun k => if k = "API_DB_USER" then some "root"
    else if k = "API_DB_PASSWORD" then some "secret"
    else if k = "API_DB_DATABASE" then some "dms"
    else if k = "API_DB_PORT" then some "65536" else none

/-! ## The probe outcome -/

/-- How the pool completes the acquisition: it connects and hands over a
connection, or it fails with an `Error`. -/
inductive ProbeOutcome where
  | connected
  | failed (message : String)
  deriving DecidableEq, Repr

/-- Modelled from the spec: the pooling library completing the probe, absent
from the sources. On success it checks a fresh connection out of the pool and
calls the callback with `(null, connection)`; on failure it calls the callback
with the error alone. -/
def deliver (o : ProbeOutcome) (w : World) : Except JSVal Unit × World :=
  match o with
  | .connected =>
      probeCallback .null (.connection w.nextConn)
        { w with nextConn := w.nextConn + 1, held := w.nextConn :: w.held }
  | .failed message => probeCallback (.errorObj message) .undefined w

/-- One run of the module: the body, then the probe outcome if the callback has
already run (`none`: not yet). -/
def runModule (o : Option ProbeOutcome) (w : World) : Except JSVal Unit × World :=
  match o with
  | none => (.ok (), moduleBody w)
  | some out => deliver out (moduleBody w)

/-- The effects a step added to the trace of `w`. -/
def World.added (w after : World) : List Effect :=
  after.trace.drop w.trace.length

/-- The lines written to the standard log stream. -/
def stdoutLines (t : List Effect) : List (List JSVal) :=
  t.filterMap fun e => match e with
    | .consoleLog args => some args
    | _ => none

/-- The lines written to the error stream. -/
def stderrLines (t : List Effect) : List (List JSVal) :=
  t.filterMap fun e => match e with
    | .consoleError args => some args
    | _ => none

/-- The connections released, in order. -/
def releases (t : List Effect) : List Nat :=
  t.filterMap fun e => match e with
    | .release c => some c
    | _ => none

/-- The pools constructed, in order. -/
def poolsCreated (t : List Effect) : List Nat :=
  t.filterMap fun e => match e with
    | .createPool _ p => some p
    | _ => none

/-- The pools on which an acquisition was requested, in order. -/
def acquisitions (t : List Effect) : List Nat :=
  t.filterMap fun e => match e with
    | .getConnection p => some p
    | _ => none

/-- The environment variables read, in order. -/
def envReads (t : List Effect) : List String :=
  t.filterMap fun e => match e with
    | .envRead k => some k
    | _ => none

/-- The options object the module hands to `createPool` in environment `env`
(the process environment as it is after the dotenv step). -/
def optionsOf (env : Env) : ObjectLit :=
  (poolOptions (World.fresh env id)).1

/-- The trace the module body adds, for a pool named `p`. -/
def bodyTrace (env : Env) (p : Nat) : List Effect :=
  [.dotenvConfig,
   .envRead "API_DB_HOST", .envRead "API_DB_USER", .envRead "API_DB_PASSWORD",
   .envRead "API_DB_DATABASE", .envRead "API_DB_PORT",
   .createPool (optionsOf env) p,
   .getConnection p,
   .promise p,
   .setExports (.promisePool p)]

/-- A sample environment: only `API_DB_PORT` is set, to the text `3306`. -/
def portOnlyEnv : Env :=
  fun k => if k = "API_DB_PORT" then some "3306" else none

/-- A sample environment: the five variables of the module are set, each to a
text of its own, and nothing else. -/
def fullEnv : Env :=
  fun k => if k = "API_DB_HOST" then some "127.0.0.1"
    else if k = "API_DB_USER" then some "root"
    else if k = "API_DB_PASSWORD" then some "secret"
    else if k = "API_DB_DATABASE" then some "dms"
    else if k = "API_DB_PORT" then some "3306" else none

/-- A sample environment: as `fullEnv`, with `DB_POOL_MAX` set as well. -/
def fullPoolMaxEnv : Env :=
  fun k => if k = "DB_POOL_MAX" then some "10" else fullEnv k

/-- A sample environment: every variable of the module is set but `API_DB_PORT`. -/
def noPortEnv : Env :=
  fun k => if k = "API_DB_HOST" then some "127.0.0.1"
    else if k = "API_DB_USER" then some "root"
    else if k = "API_DB_PASSWORD" then some "secret"
    else if k = "API_DB_DATABASE" then some "dms" else none

/-- The variables the options object is built from, each with the property
that line 5 to 9 of the source gives its value to. -/
def configFields : List (String × String) :=
  [("API_DB_HOST", "host"), ("API_DB_USER", "user"), ("API_DB_PASSWORD", "password"),
   ("API_DB_DATABASE", "database"), ("API_DB_PORT", "port")]

/-- The environment variables the options object is built from, in the order
the source reads them. -/
def configVars : List String :=
  ["API_DB_HOST", "API_DB_USER", "API_DB_PASSWORD", "API_DB_DATABASE", "API_DB_PORT"]

/-- The text of the success line. -/
def successLine : List JSVal :=
  [.str "API MySQL connected successfully!"]

/-- The failure line for an error value: the fixed text, then the value. -/
def failureLine (err : JSVal) : List JSVal :=
  [.str " not Error connecting to MySQL:", err]

/-- The effects the callback adds for a probe outcome, `c` being the connection
the pool hands over on success (`none`: the callback has not run). -/
def callbackTrace (o : Option ProbeOutcome) (c : Nat) : List Effect :=
  match o with
  | none => []
  | some .connected => [.consoleLog successLine, .release c]
  | some (.failed message) => [.consoleError (failureLine (.errorObj message))]

/-! ## Basic facts about the steps -/

theorem added_append (w after : World) (t : List Effect)
    (h : after.trace = w.trace ++ t) : w.added after = t := by
  simp [World.added, h]

theorem optionsOf_get (env : Env) :
    (optionsOf env).get "host" = envValue (env "API_DB_HOST") ∧
    (optionsOf env).get "user" = envValue (env "API_DB_USER") ∧
    (optionsOf env).get "password" = envValue (env "API_DB_PASSWORD") ∧
    (optionsOf env).get "database" = envValue (env "API_DB_DATABASE") ∧
    (optionsOf env).get "port" = envValue (env "API_DB_PORT") :=
  ⟨rfl, rfl, rfl, rfl, rfl⟩

theorem optionsOf_get_field (env : Env) (k field : String) (h : (k, field) ∈ configFields) :
    (optionsOf env).get field = envValue (env k) := by
  simp only [configFields, List.mem_cons, List.mem_singleton, List.mem_nil_iff, or_false,
    Prod.mk.injEq] at h
  rcases h with ⟨rfl, rfl⟩ | ⟨rfl, rfl⟩ | ⟨rfl, rfl⟩ | ⟨rfl, rfl⟩ | ⟨rfl, rfl⟩ <;> rfl

theorem envValue_some (v : Option String) (s : String) (h : v = some s) :
    envValue v = .str s := by
  rw [h]; rfl

theorem envValue_none (v : Option String) (h : v = none) : envValue v = .undefined := by
  rw [h]; rfl

theorem poolOptions_fst (w : World) : (poolOptions w).1 = optionsOf w.env := rfl

theorem poolOptions_snd_trace (w : World) :
    (poolOptions w).2.trace = w.trace ++ configVars.map Effect.envRead := by
  simp [poolOptions, processEnv, World.emit, configVars]

theorem moduleBody_trace (w : World) :
    (moduleBody w).trace = w.trace ++ bodyTrace (w.dotenv w.env) w.pools.length := by
  simp [moduleBody, dotenvConfig, poolOptions, processEnv, createPool, getConnection,
    promise, setModuleExports, World.emit, bodyTrace, optionsOf, World.fresh]

theorem moduleBody_pools (w : World) :
    (moduleBody w).pools = w.pools ++ [optionsOf (w.dotenv w.env)] := by
  simp [moduleBody, dotenvConfig, poolOptions, processEnv, createPool, getConnection,
    promise, setModuleExports, World.emit, optionsOf, World.fresh]

theorem moduleBody_exports (w : World) :
    (moduleBody w).moduleExports = .promisePool w.pools.length := by
  simp [moduleBody, dotenvConfig, poolOptions, processEnv, createPool, getConnection,
    promise, setModuleExports, World.emit]

theorem moduleBody_held (w : World) : (moduleBody w).held = w.held := by
  simp [moduleBody, dotenvConfig, poolOptions, processEnv, createPool, getConnection,
    promise, setModuleExports, World.emit]

theorem moduleBody_nextConn (w : World) : (moduleBody w).nextConn = w.nextConn := by
  simp [moduleBody, dotenvConfig, poolOptions, processEnv, createPool, getConnection,
    promise, setModuleExports, World.emit]

theorem probeCallback_truthy (err connection : JSVal) (w : World)
    (h : err.truthy = true) :
    probeCallback err connection w = (.ok (), w.emit (.consoleError (failureLine err))) := by
  simp [probeCallback, h, consoleError, failureLine]

theorem probeCallback_falsy (err connection : JSVal) (w : World)
    (h : err.truthy = false) :
    probeCallback err connection w = release connection (w.emit (.consoleLog successLine)) := by
  simp [probeCallback, h, consoleLog, successLine]

theorem deliver_connected (w : World) :
    deliver .connected w =
      (.ok (), { w with nextConn := w.nextConn + 1
                        trace := w.trace ++ [.consoleLog successLine, .release w.nextConn] }) := by
  simp [deliver, probeCallback, JSVal.truthy, consoleLog, release, World.emit, successLine]

theorem deliver_failed (message : String) (w : World) :
    deliver (.failed message) w =
      (.ok (), { w with trace := w.trace ++ [.consoleError (failureLine (.errorObj message))] }) := by
  simp [deliver, probeCallback, JSVal.truthy, consoleError, World.emit, failureLine]

theorem deliver_trace (o : ProbeOutcome) (w : World) :
    (deliver o w).2.trace = w.trace ++ callbackTrace (some o) w.nextConn := by
  cases o with
  | connected => rw [deliver_connected]; rfl
  | failed message => rw [deliver_failed]; rfl

theorem deliver_ok (o : ProbeOutcome) (w : World) : (deliver o w).1 = .ok () := by
  cases o with
  | connected => rw [deliver_connected]
  | failed message => rw [deliver_failed]

theorem deliver_held (o : ProbeOutcome) (w : World) : (deliver o w).2.held = w.held := by
  cases o with
  | connected => rw [deliver_connected]
  | failed message => rw [deliver_failed]

theorem deliver_exports (o : ProbeOutcome) (w : World) :
    (deliver o w).2.moduleExports = w.moduleExports := by
  cases o with
  | connected => rw [deliver_connected]
  | failed message => rw [deliver_failed]

theorem deliver_pools (o : ProbeOutcome) (w : World) : (deliver o w).2.pools = w.pools := by
  cases o with
  | connected => rw [deliver_connected]
  | failed message => rw [deliver_failed]

theorem runModule_trace (o : Option ProbeOutcome) (w : World) :
    (runModule o w).2.trace
      = w.trace ++ (bodyTrace (w.dotenv w.env) w.pools.length ++ callbackTrace o w.nextConn) := by
  cases o with
  | none => simp [runModule, moduleBody_trace, callbackTrace]
  | some out =>
      simp [runModule, deliver_trace, moduleBody_trace, moduleBody_nextConn]

theorem runModule_added (o : Option ProbeOutcome) (w : World) :
    w.added (runModule o w).2
      = bodyTrace (w.dotenv w.env) w.pools.length ++ callbackTrace o w.nextConn :=
  added_append _ _ _ (runModule_trace o w)

theorem runModule_exports (o : Option ProbeOutcome) (w : World) :
    (runModule o w).2.moduleExports = .promisePool w.pools.length := by
  cases o with
  | none => simp [runModule, moduleBody_exports]
  | some out => simp [runModule, deliver_exports, moduleBody_exports]

theorem runModule_pools (o : Option ProbeOutcome) (w : World) :
    (runModule o w).2.pools = w.pools ++ [optionsOf (w.dotenv w.env)] := by
  cases o with
  | none => simp [runModule, moduleBody_pools]
  | some out => simp [runModule, deliver_pools, moduleBody_pools]

theorem runModule_ok (o : Option ProbeOutcome) (w : World) : (runModule o w).1 = .ok () := by
  cases o with
  | none => rfl
  | some out => simp [runModule, deliver_ok]

theorem poolsCreated_append (a b : List Effect) :
    poolsCreated (a ++ b) = poolsCreated a ++ poolsCreated b := by
  simp [poolsCreated, List.filterMap_append]

theorem acquisitions_append (a b : List Effect) :
    acquisitions (a ++ b) = acquisitions a ++ acquisitions b := by
  simp [acquisitions, List.filterMap_append]

theorem envReads_append (a b : List Effect) :
    envReads (a ++ b) = envReads a ++ envReads b := by
  simp [envReads, List.filterMap_append]

theorem stdoutLines_append (a b : List Effect) :
    stdoutLines (a ++ b) = stdoutLines a ++ stdoutLines b := by
  simp [stdoutLines, List.filterMap_append]

theorem stderrLines_append (a b : List Effect) :
    stderrLines (a ++ b) = stderrLines a ++ stderrLines b := by
  simp [stderrLines, List.filterMap_append]

theorem releases_append (a b : List Effect) :
    releases (a ++ b) = releases a ++ releases b := by
  simp [releases, List.filterMap_append]

theorem poolsCreated_callbackTrace (o : Option ProbeOutcome) (c : Nat) :
    poolsCreated (callbackTrace o c) = [] := by
  rcases o with _ | _ | _ <;> rfl

theorem acquisitions_callbackTrace (o : Option ProbeOutcome) (c : Nat) :
    acquisitions (callbackTrace o c) = [] := by
  rcases o with _ | _ | _ <;> rfl

theorem envReads_callbackTrace (o : Option ProbeOutcome) (c : Nat) :
    envReads (callbackTrace o c) = [] := by
  rcases o with _ | _ | _ <;> rfl

theorem stdoutLines_bodyTrace (env : Env) (p : Nat) : stdoutLines (bodyTrace env p) = [] := rfl

theorem stderrLines_bodyTrace (env : Env) (p : Nat) : stderrLines (bodyTrace env p) = [] := rfl

theorem poolsCreated_bodyTrace (env : Env) (p : Nat) : poolsCreated (bodyTrace env p) = [p] := rfl

theorem acquisitions_bodyTrace (env : Env) (p : Nat) : acquisitions (bodyTrace env p) = [p] := rfl

theorem envReads_bodyTrace (env : Env) (p : Nat) : envReads (bodyTrace env p) = configVars := rfl

theorem moduleInit_returns (lib : Library) (w : World)
    (h : lib.raised w.env (optionsOf (w.dotenv w.env)) = none) :
    moduleInit lib w = (.ok (), moduleBody w) := by
  unfold Library.raised at h
  unfold moduleInit
  cases h1 : lib.dotenvConfig w.env with
  | some e => simp [h1] at h
  | none =>
    cases h2 : lib.requireMysql with
    | some e => simp [h1, h2] at h
    | none =>
      cases h3 : lib.createPool (optionsOf (w.dotenv w.env)) with
      | some e => simp [h1, h2, h3] at h
      | none =>
        cases h4 : lib.getConnection (optionsOf (w.dotenv w.env)) with
        | some e => simp [h1, h2, h3, h4] at h
        | none =>
          have h5 : lib.promise (optionsOf (w.dotenv w.env)) = none := by
            simpa [h1, h2, h3, h4] using h
          have e3 : lib.createPool (poolOptions (dotenvConfig w)).1 = none := h3
          have e4 : lib.getConnection (poolOptions (dotenvConfig w)).1 = none := h4
          have e5 : lib.promise (poolOptions (dotenvConfig w)).1 = none := h5
          simp only [e3, e4, e5]
          rfl

theorem moduleInit_raises (lib : Library) (w : World) (e : JSVal)
    (h : lib.raised w.env (optionsOf (w.dotenv w.env)) = some e) :
    (moduleInit lib w).1 = .error e ∧
    (moduleInit lib w).2.moduleExports = w.moduleExports := by
  unfold Library.raised at h
  unfold moduleInit
  cases h1 : lib.dotenvConfig w.env with
  | some r1 =>
    simp only [h1, Option.some.injEq] at h
    subst h
    exact ⟨rfl, rfl⟩
  | none =>
    cases h2 : lib.requireMysql with
    | some r2 =>
      simp only [h1, h2, Option.some.injEq] at h
      subst h
      exact ⟨rfl, rfl⟩
    | none =>
      cases h3 : lib.createPool (optionsOf (w.dotenv w.env)) with
      | some r3 =>
        simp only [h1, h2, h3, Option.some.injEq] at h
        subst h
        have q3 : lib.createPool (poolOptions (dotenvConfig w)).1 = some r3 := h3
        simp only [q3]
        exact ⟨trivial, rfl⟩
      | none =>
        have q3 : lib.createPool (poolOptions (dotenvConfig w)).1 = none := h3
        cases h4 : lib.getConnection (optionsOf (w.dotenv w.env)) with
        | some r4 =>
          simp only [h1, h2, h3, h4, Option.some.injEq] at h
          subst h
          have q4 : lib.getConnection (poolOptions (dotenvConfig w)).1 = some r4 := h4
          simp only [q3, q4]
          exact ⟨trivial, rfl⟩
        | none =>
          have q4 : lib.getConnection (poolOptions (dotenvConfig w)).1 = none := h4
          simp only [h1, h2, h3, h4] at h
          have q5 : lib.promise (poolOptions (dotenvConfig w)).1 = some e := h
          simp only [q3, q4, q5]
          exact ⟨trivial, rfl⟩

/-! ## The probe callback: failure branch -/

/-- C1: for every error value `err` delivered to the probe callback (a truthy
`err`), whatever the second argument, the callback returns normally, writes
exactly the failure line carrying `err` to the error stream, releases no
connection, writes nothing to the standard log stream and requests no further
acquisition; the held connections are untouched. -/
theorem probeCallback_error_swallowed (err connection : JSVal) (w : World)
    (h : err.truthy = true) :
    (probeCallback err connection w).1 = .ok () ∧
    w.added (probeCallback err connection w).2 = [.consoleError (failureLine err)] ∧
    stderrLines (w.added (probeCallback err connection w).2) = [failureLine err] ∧
    releases (w.added (probeCallback err connection w).2) = [] ∧
    stdoutLines (w.added (probeCallback err connection w).2) = [] ∧
    acquisitions (w.added (probeCallback err connection w).2) = [] ∧
    poolsCreated (w.added (probeCallback err connection w).2) = [] ∧
    (probeCallback err connection w).2.held = w.held ∧
    (probeCallback err connection w).2.moduleExports = w.moduleExports := by
  have hadd : w.added (probeCallback err connection w).2
      = [.consoleError (failureLine err)] :=
    added_append _ _ _ (by rw [probeCallback_truthy err connection w h]; rfl)
  rw [hadd, probeCallback_truthy err connection w h]
  simp [stderrLines, releases, stdoutLines, acquisitions, poolsCreated, World.emit]

/-- Witness of C1 at the error `Error("ECONNREFUSED")` in a fresh module. -/
theorem probeCallback_error_swallowed_witness :
    (JSVal.errorObj "ECONNREFUSED").truthy = true ∧
    (probeCallback (.errorObj "ECONNREFUSED") .undefined (World.fresh (fun _ => none) id)).1
      = .ok () :=
  ⟨rfl, (probeCallback_error_swallowed (.errorObj "ECONNREFUSED") .undefined
    (World.fresh (fun _ => none) id) rfl).1⟩

/-! ## The exported value -/

/-- C2: for every starting state (so every environment) and every probe outcome
(success, failure, or callback not yet run), `module.exports` is the promise
wrapper of the pool that `createPool` built from the options object; that pool
is the only one constructed and the only one the probe was requested on; the
exported value is the same as when the callback has not run. -/
theorem exports_promise_wrapper (o : Option ProbeOutcome) (w : World) :
    (runModule o w).2.moduleExports = (promise w.pools.length w).1 ∧
    (runModule o w).2.pools = w.pools ++ [optionsOf (w.dotenv w.env)] ∧
    poolsCreated (w.added (runModule o w).2) = [w.pools.length] ∧
    acquisitions (w.added (runModule o w).2) = [w.pools.length] ∧
    Effect.createPool (optionsOf (w.dotenv w.env)) w.pools.length
      ∈ w.added (runModule o w).2 ∧
    (runModule o w).2.moduleExports = (runModule none w).2.moduleExports := by
  refine ⟨runModule_exports o w, runModule_pools o w, ?_, ?_, ?_, ?_⟩
  · rw [runModule_added, poolsCreated_append, poolsCreated_callbackTrace,
      poolsCreated_bodyTrace]; rfl
  · rw [runModule_added, acquisitions_append, acquisitions_callbackTrace,
      acquisitions_bodyTrace]; rfl
  · rw [runModule_added]
    simp [bodyTrace]
  · rw [runModule_exports, runModule_exports]

/-! ## The probe never leaks -/

/-- C3: for every probe outcome the callback releases exactly the connections
it was handed: on success the released connections are the one connection the
pool handed over, once; on failure none. After the callback the held
connections are those held before, and so they are after each of two probe
cycles run in sequence. -/
theorem probe_releases_what_it_gets (o o2 : ProbeOutcome) (w : World) :
    releases (w.added (deliver .connected w).2) = [w.nextConn] ∧
    (∀ message, releases (w.added (deliver (.failed message) w).2) = []) ∧
    (∀ c, releases (w.added (probeCallback .null (.connection c) w).2) = [c]) ∧
    (probeCallback .null (.connection w.nextConn)
      { w with nextConn := w.nextConn + 1, held := w.nextConn :: w.held }).2.held = w.held ∧
    (deliver o w).1 = .ok () ∧
    (deliver o w).2.held = w.held ∧
    (deliver o2 (deliver o w).2).2.held = w.held ∧
    ((deliver o2 (deliver o w).2).2.held.length = w.held.length ∧
      (deliver o w).2.held.length = w.held.length) := by
  refine ⟨?_, ?_, ?_, ?_, deliver_ok o w, deliver_held o w, ?_, ?_, ?_⟩
  · rw [added_append _ _ _ (deliver_trace .connected w)]; rfl
  · intro message
    rw [added_append _ _ _ (deliver_trace (.failed message) w)]; rfl
  · intro c
    simp [probeCallback, JSVal.truthy, consoleLog, release, World.emit, World.added, releases]
  · exact deliver_held .connected w
  · rw [deliver_held, deliver_held]
  · rw [deliver_held, deliver_held]
  · rw [deliver_held]

/-! ## The options object -/

/-- C4: for every environment the options object handed to `createPool` has
`waitForConnections` true, `queueLimit` 0, `dateStrings` true and no
`connectionLimit` property; these do not change with the environment, and the
module reads exactly its five variables, never `DB_POOL_MAX`. -/
theorem fixed_pool_flags (env env2 : Env) (w : World) :
    (optionsOf env).get "waitForConnections" = .bool true ∧
    (optionsOf env).get "queueLimit" = .num 0 ∧
    (optionsOf env).get "dateStrings" = .bool true ∧
    "connectionLimit" ∉ (optionsOf env).keys ∧
    (optionsOf env).keys = (optionsOf env2).keys ∧
    (optionsOf env).get "waitForConnections" = (optionsOf env2).get "waitForConnections" ∧
    (optionsOf env).get "queueLimit" = (optionsOf env2).get "queueLimit" ∧
    (optionsOf env).get "dateStrings" = (optionsOf env2).get "dateStrings" ∧
    (optionsOf env).get "connectionLimit" = .undefined ∧
    (moduleBody w).pools = w.pools ++ [optionsOf (w.dotenv w.env)] ∧
    envReads (w.added (moduleBody w)) = configVars ∧
    "DB_POOL_MAX" ∉ envReads (w.added (moduleBody w)) := by
  have hreads : envReads (w.added (moduleBody w)) = configVars := by
    rw [added_append _ _ _ (moduleBody_trace w)]; rfl
  refine ⟨rfl, rfl, rfl, ?_, rfl, rfl, rfl, rfl, rfl, moduleBody_pools w, hreads, ?_⟩
  · simp [optionsOf, poolOptions, processEnv, ObjectLit.keys]
  · rw [hreads]; simp [configVars]

/-- C5: for every environment each of the `host`, `user`, `password`,
`database` and `port` properties of the options object handed to `createPool`
is the text of `API_DB_HOST`, `API_DB_USER`, `API_DB_PASSWORD`,
`API_DB_DATABASE` and `API_DB_PORT` respectively when the variable is set, and
`undefined` when it is not; each property is the same in two environments that
agree on its own variable, and the whole object is the same in two environments
that agree on the five variables. -/
theorem options_from_env (env env2 : Env) (w : World) (s : String) :
    ((env "API_DB_HOST" = some s → (optionsOf env).get "host" = .str s) ∧
     (env "API_DB_USER" = some s → (optionsOf env).get "user" = .str s) ∧
     (env "API_DB_PASSWORD" = some s → (optionsOf env).get "password" = .str s) ∧
     (env "API_DB_DATABASE" = some s → (optionsOf env).get "database" = .str s) ∧
     (env "API_DB_PORT" = some s → (optionsOf env).get "port" = .str s)) ∧
    ((env "API_DB_HOST" = none → (optionsOf env).get "host" = .undefined) ∧
     (env "API_DB_USER" = none → (optionsOf env).get "user" = .undefined) ∧
     (env "API_DB_PASSWORD" = none → (optionsOf env).get "password" = .undefined) ∧
     (env "API_DB_DATABASE" = none → (optionsOf env).get "database" = .undefined) ∧
     (env "API_DB_PORT" = none → (optionsOf env).get "port" = .undefined)) ∧
    ((env "API_DB_HOST" = env2 "API_DB_HOST" →
        (optionsOf env).get "host" = (optionsOf env2).get "host") ∧
     (env "API_DB_USER" = env2 "API_DB_USER" →
        (optionsOf env).get "user" = (optionsOf env2).get "user") ∧
     (env "API_DB_PASSWORD" = env2 "API_DB_PASSWORD" →
        (optionsOf env).get "password" = (optionsOf env2).get "password") ∧
     (env "API_DB_DATABASE" = env2 "API_DB_DATABASE" →
        (optionsOf env).get "database" = (optionsOf env2).get "database") ∧
     (env "API_DB_PORT" = env2 "API_DB_PORT" →
        (optionsOf env).get "port" = (optionsOf env2).get "port")) ∧
    ((∀ k ∈ configVars, env k = env2 k) → optionsOf env = optionsOf env2) ∧
    (moduleBody w).pools = w.pools ++ [optionsOf (w.dotenv w.env)] := by
  obtain ⟨h1, h2, h3, h4, h5⟩ := optionsOf_get env
  obtain ⟨g1, g2, g3, g4, g5⟩ := optionsOf_get env2
  refine ⟨⟨?_, ?_, ?_, ?_, ?_⟩, ⟨?_, ?_, ?_, ?_, ?_⟩, ⟨?_, ?_, ?_, ?_, ?_⟩, ?_,
    moduleBody_pools w⟩
  · intro h; rw [h1]; exact envValue_some _ s h
  · intro h; rw [h2]; exact envValue_some _ s h
  · intro h; rw [h3]; exact envValue_some _ s h
  · intro h; rw [h4]; exact envValue_some _ s h
  · intro h; rw [h5]; exact envValue_some _ s h
  · intro h; rw [h1]; exact envValue_none _ h
  · intro h; rw [h2]; exact envValue_none _ h
  · intro h; rw [h3]; exact envValue_none _ h
  · intro h; rw [h4]; exact envValue_none _ h
  · intro h; rw [h5]; exact envValue_none _ h
  · intro h; rw [h1, g1, h]
  · intro h; rw [h2, g2, h]
  · intro h; rw [h3, g3, h]
  · intro h; rw [h4, g4, h]
  · intro h; rw [h5, g5, h]
  · intro h
    simp only [configVars, List.mem_cons, List.mem_singleton, forall_eq_or_imp, forall_eq] at h
    obtain ⟨a1, a2, a3, a4, a5⟩ := h
    simp [optionsOf, poolOptions, processEnv, World.fresh, World.emit, a1, a2, a3, a4, a5]

/-- Witness of C5: in an environment that sets the five variables to
`127.0.0.1`, `root`, `secret`, `dms` and `3306` the five properties carry these
texts; in one that sets none of them the `host` property is `undefined`; and
setting `DB_POOL_MAX` besides the five leaves the options object as it is. -/
theorem options_from_env_witness :
    (fullEnv "API_DB_HOST" = some "127.0.0.1" ∧
      (optionsOf fullEnv).get "host" = .str "127.0.0.1") ∧
    (fullEnv "API_DB_USER" = some "root" ∧
      (optionsOf fullEnv).get "user" = .str "root") ∧
    (fullEnv "API_DB_PASSWORD" = some "secret" ∧
      (optionsOf fullEnv).get "password" = .str "secret") ∧
    (fullEnv "API_DB_DATABASE" = some "dms" ∧
      (optionsOf fullEnv).get "database" = .str "dms") ∧
    (fullEnv "API_DB_PORT" = some "3306" ∧
      (optionsOf fullEnv).get "port" = .str "3306") ∧
    ((fun _ => none : Env) "API_DB_HOST" = none ∧
      (optionsOf (fun _ => none)).get "host" = .undefined) ∧
    ((∀ k ∈ configVars, fullPoolMaxEnv k = fullEnv k) ∧
      fullPoolMaxEnv "DB_POOL_MAX" ≠ fullEnv "DB_POOL_MAX" ∧
      optionsOf fullPoolMaxEnv = optionsOf fullEnv) :=
  have h : ∀ k ∈ configVars, fullPoolMaxEnv k = fullEnv k := by decide
  ⟨⟨by decide, (options_from_env fullEnv fullEnv (World.fresh fullEnv id) "127.0.0.1").1.1
      (by decide)⟩,
   ⟨by decide, (options_from_env fullEnv fullEnv (World.fresh fullEnv id) "root").1.2.1
      (by decide)⟩,
   ⟨by decide, (options_from_env fullEnv fullEnv (World.fresh fullEnv id) "secret").1.2.2.1
      (by decide)⟩,
   ⟨by decide, (options_from_env fullEnv fullEnv (World.fresh fullEnv id) "dms").1.2.2.2.1
      (by decide)⟩,
   ⟨by decide, (options_from_env fullEnv fullEnv (World.fresh fullEnv id) "3306").1.2.2.2.2
      (by decide)⟩,
   ⟨rfl, (options_from_env (fun _ => none) (fun _ => none)
      (World.fresh (fun _ => none) id) "").2.1.1 rfl⟩,
   ⟨h, by decide,
    (options_from_env fullPoolMaxEnv fullEnv (World.fresh fullEnv id) "").2.2.2.1 h⟩⟩

/-- C6 fails as stated: with `API_DB_PORT` set to `3306` the `port` property of
the options object handed to `createPool` is the string `"3306"`, which is not
an integer. -/
theorem port_integer_counterexample :
    portOnlyEnv "API_DB_PORT" = some "3306" ∧
    (moduleBody (World.fresh portOnlyEnv id)).pools.map (fun o => o.get "port")
      = [.str "3306"] ∧
    ((optionsOf portOnlyEnv).get "port").isInteger = false := by
  refine ⟨by decide, ?_, by decide⟩
  rw [moduleBody_pools]
  decide

/-- C6 (amended): for every environment in which `API_DB_PORT` is set, the
`port` property of the options object handed to `createPool` is the variable's
raw text, a string; the module does not convert it to a number. -/
theorem port_is_raw_text (w : World) (s : String)
    (h : w.dotenv w.env "API_DB_PORT" = some s) :
    (moduleBody w).pools = w.pools ++ [optionsOf (w.dotenv w.env)] ∧
    (optionsOf (w.dotenv w.env)).get "port" = .str s ∧
    ((optionsOf (w.dotenv w.env)).get "port").isString = true ∧
    ((optionsOf (w.dotenv w.env)).get "port").isInteger = false := by
  have hp : (optionsOf (w.dotenv w.env)).get "port" = .str s := by
    show envValue (w.dotenv w.env "API_DB_PORT") = .str s
    rw [h]; rfl
  refine ⟨moduleBody_pools w, hp, ?_, ?_⟩ <;> rw [hp] <;> rfl

/-- Witness of C6 (amended) in a fresh module whose environment sets
`API_DB_PORT` to `3306`. -/
theorem port_is_raw_text_witness :
    (World.fresh portOnlyEnv id).dotenv (World.fresh portOnlyEnv id).env "API_DB_PORT"
      = some "3306" ∧
    (optionsOf portOnlyEnv).get "port" = .str "3306" :=
  ⟨by decide, (port_is_raw_text (World.fresh portOnlyEnv id) "3306" (by decide)).2.1⟩

/-! ## Log lines -/

/-- C7: for every probe outcome the callback emits exactly one log line and
nothing else besides the release. On success the state changes by one line on
the standard log stream followed by the release of the connection handed over,
with nothing on the error stream; on failure by one line on the error stream
alone. No outcome, and no run of the module, emits both lines. -/
theorem one_log_line (o : ProbeOutcome) (message : String) (w : World) :
    (deliver .connected w
      = (.ok (), { w with nextConn := w.nextConn + 1
                          trace := w.trace ++ [.consoleLog successLine, .release w.nextConn] }) ∧
     stdoutLines (w.added (deliver .connected w).2) = [successLine] ∧
     stderrLines (w.added (deliver .connected w).2) = []) ∧
    (deliver (.failed message) w
      = (.ok (), { w with trace :=
                    w.trace ++ [.consoleError (failureLine (.errorObj message))] }) ∧
     stdoutLines (w.added (deliver (.failed message) w).2) = [] ∧
     stderrLines (w.added (deliver (.failed message) w).2)
       = [failureLine (.errorObj message)]) ∧
    (stdoutLines (w.added (deliver o w).2)).length
      + (stderrLines (w.added (deliver o w).2)).length = 1 ∧
    ¬ (stdoutLines (w.added (deliver o w).2) ≠ [] ∧
       stderrLines (w.added (deliver o w).2) ≠ []) ∧
    (stdoutLines (w.added (runModule (some o) w).2)).length
      + (stderrLines (w.added (runModule (some o) w).2)).length = 1 := by
  have hc := added_append _ _ _ (deliver_trace .connected w)
  have hf := added_append _ _ _ (deliver_trace (.failed message) w)
  refine ⟨⟨deliver_connected w, ?_, ?_⟩, ⟨deliver_failed message w, ?_, ?_⟩, ?_, ?_, ?_⟩
  · rw [hc]; rfl
  · rw [hc]; rfl
  · rw [hf]; rfl
  · rw [hf]; rfl
  · rw [added_append _ _ _ (deliver_trace o w)]
    cases o <;> rfl
  · rw [added_append _ _ _ (deliver_trace o w)]
    cases o <;> simp [callbackTrace, stdoutLines, stderrLines]
  · rw [runModule_added, stdoutLines_append, stderrLines_append, stdoutLines_bodyTrace,
      stderrLines_bodyTrace]
    cases o <;> rfl

/-! ## The shape of a run -/

/-- C8: in every run of the module the added effects are, in this order: the
dotenv step, the reads of the five variables, the construction of one pool
from the options object built from them, one acquisition requested on that
pool, the promise wrapper of that pool, and its export; then whatever the
callback adds. Exactly one pool is constructed and exactly one acquisition is
requested, whether or not the callback has run and whatever the outcome. -/
theorem run_trace_shape (o : Option ProbeOutcome) (w : World) :
    w.added (moduleBody w)
      = [.dotenvConfig,
         .envRead "API_DB_HOST", .envRead "API_DB_USER", .envRead "API_DB_PASSWORD",
         .envRead "API_DB_DATABASE", .envRead "API_DB_PORT",
         .createPool (optionsOf (w.dotenv w.env)) w.pools.length,
         .getConnection w.pools.length,
         .promise w.pools.length,
         .setExports (.promisePool w.pools.length)] ∧
    w.added (runModule o w).2 = w.added (moduleBody w) ++ callbackTrace o w.nextConn ∧
    poolsCreated (w.added (runModule o w).2) = [w.pools.length] ∧
    acquisitions (w.added (runModule o w).2) = [w.pools.length] ∧
    envReads (w.added (runModule o w).2) = configVars ∧
    (runModule o w).2.pools.length = w.pools.length + 1 := by
  have hb := added_append _ _ _ (moduleBody_trace w)
  refine ⟨hb, ?_, ?_, ?_, ?_, ?_⟩
  · rw [hb, runModule_added]
  · rw [runModule_added, poolsCreated_append, poolsCreated_callbackTrace,
      poolsCreated_bodyTrace]; rfl
  · rw [runModule_added, acquisitions_append, acquisitions_callbackTrace,
      acquisitions_bodyTrace]; rfl
  · rw [runModule_added, envReads_append, envReads_callbackTrace, envReads_bodyTrace]; simp
  · rw [runModule_pools]; simp

/-! ## Missing variables -/

/-- C9 fails as stated: with `API_DB_PORT` missing, a probe on which the pool
connects runs the success branch: the module writes the success line and
nothing on the error stream. -/
theorem missing_variable_counterexample :
    noPortEnv "API_DB_PORT" = none ∧
    (runModule (some .connected) (World.fresh noPortEnv id)).1 = .ok () ∧
    stderrLines (runModule (some .connected) (World.fresh noPortEnv id)).2.trace = [] ∧
    stdoutLines (runModule (some .connected) (World.fresh noPortEnv id)).2.trace
      = [successLine] := by
  refine ⟨by decide, runModule_ok _ _, ?_, ?_⟩
  · rw [runModule_trace, stderrLines_append, stderrLines_append, stderrLines_bodyTrace]; rfl
  · rw [runModule_trace, stdoutLines_append, stdoutLines_append, stdoutLines_bodyTrace]; rfl

/-- C9 (amended): for every environment in which one of the five variables is
missing, module initialization raises nothing of its own: when its library
calls return, it returns, the pool is constructed from an options object in
which the property of every missing variable is `undefined`, and its promise
wrapper is exported. The module makes no check of the variables: the branch of
the probe is the pool's decision, and whenever the pool fails the probe the
callback writes the failure line to the error stream and returns without
raising. The module catches nothing either: when a library call raises,
initialization raises that value and nothing is exported. -/
theorem missing_variable_no_crash (lib lib2 : Library) (w : World)
    (k field message : String) (e : JSVal)
    (hk : (k, field) ∈ configFields) (h : w.dotenv w.env k = none)
    (hlib : lib.raised w.env (optionsOf (w.dotenv w.env)) = none) :
    (moduleInit lib w).1 = .ok () ∧
    (moduleInit lib w).2.pools = w.pools ++ [optionsOf (w.dotenv w.env)] ∧
    (optionsOf (w.dotenv w.env)).get field = .undefined ∧
    ((w.dotenv w.env "API_DB_HOST" = none →
        (optionsOf (w.dotenv w.env)).get "host" = .undefined) ∧
     (w.dotenv w.env "API_DB_USER" = none →
        (optionsOf (w.dotenv w.env)).get "user" = .undefined) ∧
     (w.dotenv w.env "API_DB_PASSWORD" = none →
        (optionsOf (w.dotenv w.env)).get "password" = .undefined) ∧
     (w.dotenv w.env "API_DB_DATABASE" = none →
        (optionsOf (w.dotenv w.env)).get "database" = .undefined) ∧
     (w.dotenv w.env "API_DB_PORT" = none →
        (optionsOf (w.dotenv w.env)).get "port" = .undefined)) ∧
    (moduleInit lib w).2.moduleExports = .promisePool w.pools.length ∧
    acquisitions (w.added (moduleInit lib w).2) = [w.pools.length] ∧
    (deliver (.failed message) (moduleInit lib w).2).1 = .ok () ∧
    (deliver (.failed message) (moduleInit lib w).2).2.moduleExports
      = .promisePool w.pools.length ∧
    stderrLines (w.added (deliver (.failed message) (moduleInit lib w).2).2)
      = [failureLine (.errorObj message)] ∧
    stdoutLines (w.added (deliver (.failed message) (moduleInit lib w).2).2) = [] ∧
    (lib2.raised w.env (optionsOf (w.dotenv w.env)) = some e →
      (moduleInit lib2 w).1 = .error e ∧
      (moduleInit lib2 w).2.moduleExports = w.moduleExports) := by
  obtain ⟨g1, g2, g3, g4, g5⟩ := optionsOf_get (w.dotenv w.env)
  have hrun : deliver (.failed message) (moduleBody w)
      = runModule (some (.failed message)) w := rfl
  rw [moduleInit_returns lib w hlib]
  refine ⟨rfl, moduleBody_pools w, ?_, ⟨?_, ?_, ?_, ?_, ?_⟩, moduleBody_exports w, ?_, ?_, ?_,
    ?_, ?_, moduleInit_raises lib2 w e⟩
  · rw [optionsOf_get_field _ k field hk]; exact envValue_none _ h
  · intro h0; rw [g1]; exact envValue_none _ h0
  · intro h0; rw [g2]; exact envValue_none _ h0
  · intro h0; rw [g3]; exact envValue_none _ h0
  · intro h0; rw [g4]; exact envValue_none _ h0
  · intro h0; rw [g5]; exact envValue_none _ h0
  · show acquisitions (w.added (moduleBody w)) = [w.pools.length]
    rw [added_append _ _ _ (moduleBody_trace w)]; rfl
  · exact deliver_ok _ _
  · show (deliver (.failed message) (moduleBody w)).2.moduleExports = _
    rw [deliver_exports, moduleBody_exports]
  · show stderrLines (w.added (deliver (.failed message) (moduleBody w)).2) = _
    rw [hrun, runModule_added, stderrLines_append, stderrLines_bodyTrace]; rfl
  · show stdoutLines (w.added (deliver (.failed message) (moduleBody w)).2) = _
    rw [hrun, runModule_added, stdoutLines_append, stdoutLines_bodyTrace]; rfl

/-- Witness of C9 (amended) in a fresh module whose environment lacks
`API_DB_HOST` and sets `API_DB_PORT` to `65536`: with a library whose calls
return, initialization returns, `host` is `undefined`, and a probe failing with
`ECONNREFUSED` is logged; with a library whose `getConnection` raises on that
port, initialization raises. -/
theorem missing_variable_no_crash_witness :
    (("API_DB_HOST", "host") ∈ configFields ∧
      (World.fresh badPortEnv id).dotenv (World.fresh badPortEnv id).env "API_DB_HOST" = none ∧
      Library.returning.raised (World.fresh badPortEnv id).env
        (optionsOf ((World.fresh badPortEnv id).dotenv (World.fresh badPortEnv id).env))
        = none) ∧
    (moduleInit Library.returning (World.fresh badPortEnv id)).1 = .ok () ∧
    (optionsOf badPortEnv).get "host" = .undefined ∧
    stderrLines ((World.fresh badPortEnv id).added
        (deliver (.failed "ECONNREFUSED")
          (moduleInit Library.returning (World.fresh badPortEnv id)).2).2)
      = [failureLine (.errorObj "ECONNREFUSED")] ∧
    (moduleInit Library.portChecking (World.fresh badPortEnv id)).1
      = .error (.errorObj "RangeError") :=
  have hw := missing_variable_no_crash Library.returning Library.portChecking
    (World.fresh badPortEnv id) "API_DB_HOST" "host" "ECONNREFUSED" (.errorObj "RangeError")
    (by decide) (by decide) rfl
  ⟨⟨by decide, by decide, rfl⟩, hw.1, hw.2.2.1, hw.2.2.2.2.2.2.2.2.1,
    (hw.2.2.2.2.2.2.2.2.2.2 (by decide)).1⟩

/-! ## The log does not reveal the configuration -/

/-- C10: the lines the module writes are a function of the probe result alone.
For any two starting states (any two environments, dotenv steps and histories)
and the same callback arguments, the callback writes the same lines to both
streams, and so does a whole run with the same outcome. The success line is a
constant and the failure line is the fixed text followed by the error value the
pool supplied. -/
theorem log_independent_of_env (err connection : JSVal) (o : ProbeOutcome)
    (message : String) (w1 w2 : World) :
    stdoutLines (w1.added (probeCallback err connection w1).2)
      = stdoutLines (w2.added (probeCallback err connection w2).2) ∧
    stderrLines (w1.added (probeCallback err connection w1).2)
      = stderrLines (w2.added (probeCallback err connection w2).2) ∧
    stdoutLines (w1.added (runModule (some o) w1).2)
      = stdoutLines (w2.added (runModule (some o) w2).2) ∧
    stderrLines (w1.added (runModule (some o) w1).2)
      = stderrLines (w2.added (runModule (some o) w2).2) ∧
    stdoutLines (w1.added (runModule (some .connected) w1).2)
      = [[.str "API MySQL connected successfully!"]] ∧
    stderrLines (w1.added (runModule (some (.failed message)) w1).2)
      = [[.str " not Error connecting to MySQL:", .errorObj message]] := by
  have hcb : ∀ w : World,
      stdoutLines (w.added (probeCallback err connection w).2)
        = (if err.truthy then [] else [successLine]) ∧
      stderrLines (w.added (probeCallback err connection w).2)
        = (if err.truthy then [failureLine err] else []) := by
    intro w
    cases ht : err.truthy
    · rw [probeCallback_falsy err connection w ht]
      cases connection <;>
        simp [release, World.added, World.emit, stdoutLines, stderrLines]
    · rw [probeCallback_truthy err connection w ht]
      simp [World.added, World.emit, stdoutLines, stderrLines]
  have hrun : ∀ (out : ProbeOutcome) (w : World),
      stdoutLines (w.added (runModule (some out) w).2)
        = stdoutLines (callbackTrace (some out) 0) ∧
      stderrLines (w.added (runModule (some out) w).2)
        = stderrLines (callbackTrace (some out) 0) := by
    intro out w
    rw [runModule_added, stdoutLines_append, stderrLines_append, stdoutLines_bodyTrace,
      stderrLines_bodyTrace]
    cases out <;> exact ⟨rfl, rfl⟩
  refine ⟨?_, ?_, ?_, ?_, ?_, ?_⟩
  · rw [(hcb w1).1, (hcb w2).1]
  · rw [(hcb w1).2, (hcb w2).2]
  · rw [(hrun o w1).1, (hrun o w2).1]
  · rw [(hrun o w1).2, (hrun o w2).2]
  · rw [(hrun .connected w1).1]; rfl
  · rw [(hrun (.failed message) w1).2]; rfl

end ApiDb
